/-
  Verification of the escrow Move module of the aptos-datn marketplace.

  Shallow embedding of module message_board_addr::escrow (plus the
  fragments of ecommerce_platform::product and user_profile that escrow
  consults).  Move `assert!` aborts the whole transaction and rolls back
  every write, so each entry function is embedded as a function
  `State -> Except MoveError State`: a `.error` result means the
  transaction aborted and the pre-state persists unchanged.

  Machine integers (u64/u8) are modelled as Nat with explicit
  overflow-abort checks (`< u64Max`) where the source performs arithmetic
  that can overflow; Move aborts (it does not wrap) on u64 overflow.
  Coin deposits are modelled as plain addition: the AptosCoin total
  supply fits in a u64, so `coin::merge` can never overflow on reachable
  balances.

  The first byte of `sha3_256(bcs::to_bytes(addr))` used by the code
  generators is an external cryptographic primitive of the Move stdlib;
  it is passed in as a function parameter `hfb : Addr -> Nat`.
-/
import Mathlib

namespace AptosEscrow

/-- Account / object addresses, abstracted as naturals. -/
abbrev Addr := Nat

/-- First value outside the u64 range. -/
def u64Max : Nat := 18446744073709551616

/-- Outcome of an aborting Move transaction: either an `assert!` failure
carrying its error-code constant, a u64 arithmetic overflow abort, a
`move_to` to an address already holding the resource, or a
`vector::borrow` out of bounds. -/
inductive MoveError where
  | abort (code : Nat)
  | arithmeticOverflow
  | resourceAlreadyExists
  | vectorOutOfBounds
deriving Repr, DecidableEq

-- ======================== escrow error codes ========================

def ERR_USER_PROFILE_NOT_FOUND : Nat := 1
def ERR_ONLY_BUYER_CAN_TRADE : Nat := 2
def ERR_PRODUCT_NOT_AVAILABLE : Nat := 3
def ERR_INSUFFICIENT_PRODUCT_QUANTITY : Nat := 4
def ERR_INVALID_QUANTITY : Nat := 5
def ERR_ESCROW_ORDER_NOT_FOUND : Nat := 6
def ERR_INVALID_DELIVERY_CODE : Nat := 7
def ERR_INVALID_RECEIVING_CODE : Nat := 8
def ERR_ONLY_BUYER_CAN_CONFIRM : Nat := 9
def ERR_ONLY_SELLER_CAN_DELIVER : Nat := 10
def ERR_ORDER_NOT_HOLDING : Nat := 12
def ERR_ORDER_NOT_DELIVERED : Nat := 13
def ERR_INSUFFICIENT_FUNDS : Nat := 14
def ERR_CANNOT_CANCEL : Nat := 15

/-- Error code 3 of the product module (`ERR_PRODUCT_NOT_FOUND` there),
raised by `product::get_product` on a missing product. -/
def PRODUCT_ERR_PRODUCT_NOT_FOUND : Nat := 3

-- ======================== status constants ========================

def ESCROW_STATUS_INITIATED : Nat := 1
def ESCROW_STATUS_HOLDING : Nat := 2
def ESCROW_STATUS_DELIVERED : Nat := 3
def ESCROW_STATUS_COMPLETED : Nat := 4
def ESCROW_STATUS_CANCELLED : Nat := 5
def ESCROW_STATUS_REFUNDED : Nat := 6

/-- Role constant of the user_profile module. -/
def ROLE_BUYER : Nat := 1

-- ======================== data model ========================

/-- The slice of `user_profile::UserProfile` escrow consults
(`is_buyer` reads `role`; the other fields are irrelevant here). -/
structure UserProfile where
  role : Nat
deriving Repr, DecidableEq

/-- `product::Product` (the `extend_ref` capability carries no data). -/
structure Product where
  title : String
  description : String
  price : Nat
  total_quantity : Nat
  quantity_left : Nat
  image_urls : List String
  category : String
  is_available : Bool
  is_deleted : Bool
  seller_wallet : Addr
  created_at : Nat
  updated_at : Nat
deriving Repr, DecidableEq

/-- `escrow::EscrowOrder`; `locked_funds : Coin<AptosCoin>` is modelled
by its value, and the `extend_ref` capability is omitted. -/
structure EscrowOrder where
  escrow_order_id : Nat
  product_obj_addr : Addr
  quantity : Nat
  buyer_wallet : Addr
  seller_wallet : Addr
  unit_price : Nat
  total_amount : Nat
  transaction_hash : String
  delivery_code : String
  receiving_code : String
  status : Nat
  locked_funds : Nat
  shipping_address : String
  created_at : Nat
  updated_at : Nat
  delivered_at : Nat
  completed_at : Nat
deriving Repr, DecidableEq

/-- `escrow::BuyerEscrowRegistry`. -/
structure BuyerEscrowRegistry where
  escrow_orders : List Addr
  order_count : Nat
deriving Repr, DecidableEq

/-- `escrow::SellerEscrowRegistry` (global resource at the module
address, two parallel vectors). -/
structure SellerEscrowRegistry where
  seller_addresses : List Addr
  seller_escrow_orders : List (List Addr)
deriving Repr, DecidableEq

/-- Global state visible to the escrow module: external resources
(profiles, products, coin balances) plus the module's own resources.
`orders a = some o` models `exists<EscrowOrder>(a)` with contents `o`;
the seller registry and counter are created by `init_module` at
deployment and therefore always present. -/
structure State where
  profiles : Addr → Option UserProfile
  products : Addr → Option Product
  balances : Addr → Nat
  orders : Addr → Option EscrowOrder
  buyer_registries : Addr → Option BuyerEscrowRegistry
  seller_registry : SellerEscrowRegistry
  counter : Nat

-- ======================== external module reads ========================

/-- `user_profile::profile_exists`. -/
def profile_exists (st : State) (user_addr : Addr) : Bool :=
  (st.profiles user_addr).isSome

/-- `user_profile::is_buyer`. -/
def is_buyer (st : State) (user_addr : Addr) : Bool :=
  match st.profiles user_addr with
  | none => false
  | some p => p.role == ROLE_BUYER

/-- `product::is_product_available`. -/
def is_product_available (st : State) (product_addr : Addr) : Bool :=
  match st.products product_addr with
  | none => false
  | some p => p.is_available && !p.is_deleted && decide (p.quantity_left > 0)

-- ======================== vector helpers ========================

/-- Auxiliary loop of `vector::index_of`: scan from position `i`. -/
def index_of_from (e : Addr) : Nat → List Addr → Bool × Nat
  | _, [] => (false, 0)
  | i, a :: rest => if a = e then (true, i) else index_of_from e (i + 1) rest

/-- `vector::index_of`: `(true, first index of e)` when present,
`(false, 0)` otherwise. -/
def vector_index_of (v : List Addr) (e : Addr) : Bool × Nat :=
  index_of_from e 0 v

/-- `escrow::add_to_seller_registry`. -/
def add_to_seller_registry (reg : SellerEscrowRegistry) (seller_addr : Addr)
    (escrow_order_addr : Addr) : SellerEscrowRegistry :=
  let fi := vector_index_of reg.seller_addresses seller_addr
  if fi.1 then
    { reg with
      seller_escrow_orders :=
        reg.seller_escrow_orders.set fi.2
          ((reg.seller_escrow_orders.getD fi.2 []) ++ [escrow_order_addr]) }
  else
    { seller_addresses := reg.seller_addresses ++ [seller_addr],
      seller_escrow_orders := reg.seller_escrow_orders ++ [[escrow_order_addr]] }

-- ======================== code generation ========================

/-- While-loop of `escrow::u64_to_string`: push ASCII digits
least-significant first (the caller reverses at the end).  The loop is
embedded with structural fuel so that it reduces in the kernel; `fuel`
is an upper bound on the iteration count (`temp` itself suffices, since
`temp / 10 < temp` while `temp > 0`), and `u64_loop_eq_digits` below
characterises the result exactly. -/
def u64_to_string_loop (fuel temp : Nat) (digits : List Char) : List Char :=
  match fuel with
  | 0 => digits
  | fuel + 1 =>
    if temp > 0 then
      u64_to_string_loop fuel (temp / 10) (digits ++ [Char.ofNat (temp % 10 + 48)])
    else digits

/-- `escrow::u64_to_string`. -/
def u64_to_string (num : Nat) : String :=
  if num = 0 then "0"
  else String.mk (u64_to_string_loop num num []).reverse

/-- `escrow::generate_6_digit_code`; `hfb buyer_addr` stands for the
first byte of `sha3_256(bcs::to_bytes(buyer_addr))`.  The u64 addition
`escrow_order_id + first_byte` aborts on overflow. -/
def generate_6_digit_code (hfb : Addr → Nat) (escrow_order_id : Nat)
    (buyer_addr : Addr) : Except MoveError String :=
  let first_byte := hfb buyer_addr
  if escrow_order_id + first_byte < u64Max then
    let seed := escrow_order_id + first_byte
    .ok (u64_to_string (100000 + seed % 900000))
  else .error .arithmeticOverflow

/-- `escrow::generate_4_digit_code`; the u64 computation
`escrow_order_id * 7 + first_byte` aborts on overflow. -/
def generate_4_digit_code (hfb : Addr → Nat) (escrow_order_id : Nat)
    (seller_addr : Addr) : Except MoveError String :=
  let first_byte := hfb seller_addr
  if escrow_order_id * 7 + first_byte < u64Max then
    let seed := escrow_order_id * 7 + first_byte
    .ok (u64_to_string (1000 + seed % 9000))
  else .error .arithmeticOverflow

-- ======================== state update helpers ========================

/-- Write the `EscrowOrder` resource at `addr` (the effect of mutating
through `borrow_global_mut<EscrowOrder>(addr)` or of `move_to`). -/
def set_order (st : State) (addr : Addr) (o : EscrowOrder) : State :=
  { st with orders := fun a => if a = addr then some o else st.orders a }

/-- `coin::deposit(b, v)`: add `v` to the balance of `b`. -/
def add_balance (st : State) (b : Addr) (v : Nat) : State :=
  { st with balances := fun a => if a = b then st.balances a + v else st.balances a }

-- ======================== entry functions ========================

/-- Post-state of a successful `initiate_trade_and_lock_funds`: funds
withdrawn from the buyer, the new `EscrowOrder` moved to the fresh
object address with status Holding, the buyer registry created on first
use and appended to, the seller registry appended to, the global counter
bumped.  `dc`/`rc` are the generated delivery and receiving codes and
`p` the catalog product that was read. -/
def initiate_success_state (st : State) (buyer_addr product_obj_addr fresh_addr : Addr)
    (quantity : Nat) (shipping_address transaction_hash dc rc : String)
    (current_time : Nat) (p : Product) : State :=
  let total_amount := p.price * quantity
  let escrow_order_id := st.counter + 1
  let order : EscrowOrder :=
    { escrow_order_id := escrow_order_id
      product_obj_addr := product_obj_addr
      quantity := quantity
      buyer_wallet := buyer_addr
      seller_wallet := p.seller_wallet
      unit_price := p.price
      total_amount := total_amount
      transaction_hash := transaction_hash
      delivery_code := dc
      receiving_code := rc
      status := ESCROW_STATUS_HOLDING
      locked_funds := total_amount
      shipping_address := shipping_address
      created_at := current_time
      updated_at := current_time
      delivered_at := 0
      completed_at := 0 }
  let breg := (st.buyer_registries buyer_addr).getD
    { escrow_orders := [], order_count := 0 }
  { st with
    balances := fun a => if a = buyer_addr then st.balances a - total_amount else st.balances a,
    orders := fun a => if a = fresh_addr then some order else st.orders a,
    buyer_registries := fun a =>
      if a = buyer_addr then
        some { escrow_orders := breg.escrow_orders ++ [fresh_addr],
               order_count := breg.order_count + 1 }
      else st.buyer_registries a,
    seller_registry := add_to_seller_registry st.seller_registry p.seller_wallet fresh_addr,
    counter := escrow_order_id }

/-- `escrow::initiate_trade_and_lock_funds`.  Checks in source order:
profile exists, role is buyer, quantity positive, product available,
product read (`get_product`, cannot fail past the availability check),
stock sufficient, `unit_price * quantity` (u64 overflow aborts),
buyer balance sufficient; then withdraws, bumps the counter, generates
the two codes, moves the order to the fresh object address and updates
both registries.  `current_time` models `timestamp::now_seconds()` and
`fresh_addr` the address of the freshly created object. -/
def initiate_trade_and_lock_funds (hfb : Addr → Nat) (st : State)
    (buyer_addr product_obj_addr : Addr) (quantity : Nat)
    (shipping_address transaction_hash : String)
    (current_time : Nat) (fresh_addr : Addr) : Except MoveError State :=
  if profile_exists st buyer_addr then
    if is_buyer st buyer_addr then
      if 0 < quantity then
        if is_product_available st product_obj_addr then
          match st.products product_obj_addr with
          | none => .error (.abort PRODUCT_ERR_PRODUCT_NOT_FOUND)
          | some p =>
            if quantity ≤ p.quantity_left then
              if p.price * quantity < u64Max then
                if p.price * quantity ≤ st.balances buyer_addr then
                  if st.counter + 1 < u64Max then
                    match generate_6_digit_code hfb (st.counter + 1) buyer_addr with
                    | .error e => .error e
                    | .ok dc =>
                      match generate_4_digit_code hfb (st.counter + 1) p.seller_wallet with
                      | .error e => .error e
                      | .ok rc =>
                        if (st.orders fresh_addr).isNone then
                          if ((st.buyer_registries buyer_addr).getD
                              { escrow_orders := [], order_count := 0 }).order_count + 1 < u64Max then
                            .ok (initiate_success_state st buyer_addr product_obj_addr
                              fresh_addr quantity shipping_address transaction_hash
                              dc rc current_time p)
                          else .error .arithmeticOverflow
                        else .error .resourceAlreadyExists
                  else .error .arithmeticOverflow
                else .error (.abort ERR_INSUFFICIENT_FUNDS)
              else .error .arithmeticOverflow
            else .error (.abort ERR_INSUFFICIENT_PRODUCT_QUANTITY)
        else .error (.abort ERR_PRODUCT_NOT_AVAILABLE)
      else .error (.abort ERR_INVALID_QUANTITY)
    else .error (.abort ERR_ONLY_BUYER_CAN_TRADE)
  else .error (.abort ERR_USER_PROFILE_NOT_FOUND)

/-- `escrow::deliver_order`.  Asserts in source order: order exists,
caller is the seller, status is Holding, input matches the stored
delivery code; then stamps status Delivered and the timestamps. -/
def deliver_order (st : State) (seller_addr escrow_order_obj_addr : Addr)
    (delivery_code_input : String) (current_time : Nat) : Except MoveError State :=
  match st.orders escrow_order_obj_addr with
  | none => .error (.abort ERR_ESCROW_ORDER_NOT_FOUND)
  | some o =>
    if o.seller_wallet = seller_addr then
      if o.status = ESCROW_STATUS_HOLDING then
        if o.delivery_code = delivery_code_input then
          .ok (set_order st escrow_order_obj_addr
            { o with status := ESCROW_STATUS_DELIVERED,
                     delivered_at := current_time, updated_at := current_time })
        else .error (.abort ERR_INVALID_DELIVERY_CODE)
      else .error (.abort ERR_ORDER_NOT_HOLDING)
    else .error (.abort ERR_ONLY_SELLER_CAN_DELIVER)

/-- `escrow::confirm_delivery_and_release_funds`.  Asserts in source
order: order exists, caller is the buyer, status is Delivered, input
matches the stored receiving code; then `extract_all` of the locked
funds is deposited to the seller and status becomes Completed. -/
def confirm_delivery_and_release_funds (st : State)
    (buyer_addr escrow_order_obj_addr : Addr)
    (receiving_code_input : String) (current_time : Nat) : Except MoveError State :=
  match st.orders escrow_order_obj_addr with
  | none => .error (.abort ERR_ESCROW_ORDER_NOT_FOUND)
  | some o =>
    if o.buyer_wallet = buyer_addr then
      if o.status = ESCROW_STATUS_DELIVERED then
        if o.receiving_code = receiving_code_input then
          .ok (set_order (add_balance st o.seller_wallet o.locked_funds)
            escrow_order_obj_addr
            { o with locked_funds := 0, status := ESCROW_STATUS_COMPLETED,
                     completed_at := current_time, updated_at := current_time })
        else .error (.abort ERR_INVALID_RECEIVING_CODE)
      else .error (.abort ERR_ORDER_NOT_DELIVERED)
    else .error (.abort ERR_ONLY_BUYER_CAN_CONFIRM)

/-- `escrow::cancel_escrow_order`.  Asserts in source order: order
exists, caller is buyer or seller (the source reuses error code
`ERR_ONLY_BUYER_CAN_CONFIRM` here), status is Holding; then
`extract_all` of the locked funds is deposited back to the buyer and
status becomes Cancelled (`completed_at`/`delivered_at` untouched). -/
def cancel_escrow_order (st : State) (sender_addr escrow_order_obj_addr : Addr)
    (reason : String) (current_time : Nat) : Except MoveError State :=
  match st.orders escrow_order_obj_addr with
  | none => .error (.abort ERR_ESCROW_ORDER_NOT_FOUND)
  | some o =>
    if o.buyer_wallet = sender_addr ∨ o.seller_wallet = sender_addr then
      if o.status = ESCROW_STATUS_HOLDING then
        .ok (set_order (add_balance st o.buyer_wallet o.locked_funds)
          escrow_order_obj_addr
          { o with locked_funds := 0, status := ESCROW_STATUS_CANCELLED,
                   updated_at := current_time })
      else .error (.abort ERR_CANNOT_CANCEL)
    else .error (.abort ERR_ONLY_BUYER_CAN_CONFIRM)

-- ======================== view functions ========================

/-- `escrow::get_buyer_escrow_orders`: empty when the buyer has no
registry resource. -/
def get_buyer_escrow_orders (st : State) (buyer_addr : Addr) : List Addr :=
  match st.buyer_registries buyer_addr with
  | none => []
  | some r => r.escrow_orders

/-- `escrow::get_seller_escrow_orders`: looks the seller up in the
global registry via `vector::index_of`; empty when absent, otherwise
`vector::borrow` of the parallel orders vector (which aborts if the
parallel vectors were shorter — never the case for reachable states). -/
def get_seller_escrow_orders (st : State) (seller_addr : Addr) :
    Except MoveError (List Addr) :=
  let reg := st.seller_registry
  let fi := vector_index_of reg.seller_addresses seller_addr
  if fi.1 then
    match reg.seller_escrow_orders.get? fi.2 with
    | some l => .ok l
    | none => .error .vectorOutOfBounds
  else .ok []

/-- `escrow::get_buyer_order_count`: 0 when the buyer has no registry
resource. -/
def get_buyer_order_count (st : State) (buyer_addr : Addr) : Nat :=
  match st.buyer_registries buyer_addr with
  | none => 0
  | some r => r.order_count

-- ======================== reachability ========================

/-- States reachable through the escrow module: deployment
(`init_module`: zero counter, empty seller registry, no orders and no
buyer registries, arbitrary external resources), arbitrary activity of
the external modules (profiles, products, coin balances — none of which
can touch escrow-owned resources, whose types are private to the
module), and every successful escrow entry call.  Aborted calls roll
back and leave the state untouched. -/
inductive Reachable (hfb : Addr → Nat) : State → Prop where
  | init (profiles : Addr → Option UserProfile) (products : Addr → Option Product)
      (balances : Addr → Nat) :
      Reachable hfb
        { profiles := profiles, products := products, balances := balances,
          orders := fun _ => none, buyer_registries := fun _ => none,
          seller_registry := { seller_addresses := [], seller_escrow_orders := [] },
          counter := 0 }
  | env {st : State} (profiles : Addr → Option UserProfile)
      (products : Addr → Option Product) (balances : Addr → Nat) :
      Reachable hfb st →
      Reachable hfb { st with profiles := profiles, products := products, balances := balances }
  | initiate_step {st st' : State} (buyer_addr product_obj_addr : Addr) (quantity : Nat)
      (shipping_address transaction_hash : String) (current_time : Nat) (fresh_addr : Addr) :
      Reachable hfb st →
      initiate_trade_and_lock_funds hfb st buyer_addr product_obj_addr quantity
        shipping_address transaction_hash current_time fresh_addr = .ok st' →
      Reachable hfb st'
  | deliver_step {st st' : State} (seller_addr escrow_order_obj_addr : Addr)
      (delivery_code_input : String) (current_time : Nat) :
      Reachable hfb st →
      deliver_order st seller_addr escrow_order_obj_addr delivery_code_input
        current_time = .ok st' →
      Reachable hfb st'
  | confirm_step {st st' : State} (buyer_addr escrow_order_obj_addr : Addr)
      (receiving_code_input : String) (current_time : Nat) :
      Reachable hfb st →
      confirm_delivery_and_release_funds st buyer_addr escrow_order_obj_addr
        receiving_code_input current_time = .ok st' →
      Reachable hfb st'
  | cancel_step {st st' : State} (sender_addr escrow_order_obj_addr : Addr)
      (reason : String) (current_time : Nat) :
      Reachable hfb st →
      cancel_escrow_order st sender_addr escrow_order_obj_addr reason current_time = .ok st' →
      Reachable hfb st'

-- ======================== concrete scenario ========================

/-- Hash-byte model used by the concrete scenario: every address hashes
to first byte 0. -/
def demoHfb : Addr → Nat := fun _ => 0

/-- Catalog product of the concrete scenario: price 5, 3 in stock,
sold by address 2. -/
def demoProduct : Product :=
  { title := "t", description := "d", price := 5, total_quantity := 3,
    quantity_left := 3, image_urls := [], category := "c",
    is_available := true, is_deleted := false, seller_wallet := 2,
    created_at := 0, updated_at := 0 }

/-- Deployment state of the concrete scenario: buyer profile at
address 1 with balance 100, product at address 10, no escrow activity. -/
def demoSt0 : State :=
  { profiles := fun a => if a = 1 then some { role := 1 } else none,
    products := fun a => if a = 10 then some demoProduct else none,
    balances := fun a => if a = 1 then 100 else 0,
    orders := fun _ => none,
    buyer_registries := fun _ => none,
    seller_registry := { seller_addresses := [], seller_escrow_orders := [] },
    counter := 0 }

/-- Buyer 1 buys 2 units of product 10; the order object lands at
address 50. -/
def demoInit : Except MoveError State :=
  initiate_trade_and_lock_funds demoHfb demoSt0 1 10 2 "ship" "tx" 1000 50

/-- State after the successful initiation (order id 1, codes "100001"
and "1007", 10 locked). -/
def demoSt1 : State := demoInit.toOption.getD demoSt0

theorem demo_initiate_ok : demoInit = .ok demoSt1 := rfl

/-- Seller 2 delivers with the correct 6-digit code. -/
def demoDeliver : Except MoveError State := deliver_order demoSt1 2 50 "100001" 2000

/-- State after the successful delivery. -/
def demoSt2 : State := demoDeliver.toOption.getD demoSt0

theorem demo_deliver_ok : demoDeliver = .ok demoSt2 := rfl

/-- Buyer 1 confirms with the correct 4-digit code; the 10 locked units
are released to seller 2. -/
def demoConfirm : Except MoveError State :=
  confirm_delivery_and_release_funds demoSt2 1 50 "1007" 3000

/-- State after the successful confirmation. -/
def demoSt3 : State := demoConfirm.toOption.getD demoSt0

theorem demo_confirm_ok : demoConfirm = .ok demoSt3 := rfl

/-- Alternative branch: seller 2 cancels the Holding order of demoSt1;
the 10 locked units go back to buyer 1. -/
def demoCancel : Except MoveError State := cancel_escrow_order demoSt1 2 50 "r" 2500

/-- State after the successful cancellation. -/
def demoStC : State := demoCancel.toOption.getD demoSt0

theorem demo_cancel_ok : demoCancel = .ok demoStC := rfl

theorem demo_reachable_st1 : Reachable demoHfb demoSt1 :=
  .initiate_step 1 10 2 "ship" "tx" 1000 50
    (.init demoSt0.profiles demoSt0.products demoSt0.balances) demo_initiate_ok

theorem demo_reachable_st2 : Reachable demoHfb demoSt2 :=
  .deliver_step 2 50 "100001" 2000 demo_reachable_st1 demo_deliver_ok

theorem demo_reachable_st3 : Reachable demoHfb demoSt3 :=
  .confirm_step 1 50 "1007" 3000 demo_reachable_st2 demo_confirm_ok

-- ======================== helper lemmas ========================

theorem index_of_from_not_mem {e : Addr} {v : List Addr} (h : e ∉ v) (i : Nat) :
    index_of_from e i v = (false, 0) := by
  induction v generalizing i with
  | nil => rfl
  | cons a rest ih =>
    rw [index_of_from]
    rw [List.mem_cons, not_or] at h
    rw [if_neg (fun hae => h.1 hae.symm)]
    exact ih h.2 (i + 1)

theorem vector_index_of_not_mem {e : Addr} {v : List Addr} (h : e ∉ v) :
    vector_index_of v e = (false, 0) :=
  index_of_from_not_mem h 0

theorem u64_loop_eq_digits (fuel : Nat) :
    ∀ (temp : Nat) (acc : List Char), temp ≤ fuel →
      u64_to_string_loop fuel temp acc
        = acc ++ (Nat.digits 10 temp).map (fun d => Char.ofNat (d + 48)) := by
  induction fuel with
  | zero =>
    intro temp acc h
    have ht : temp = 0 := Nat.le_zero.mp h
    subst ht
    simp [u64_to_string_loop]
  | succ fuel ih =>
    intro temp acc h
    rw [u64_to_string_loop]
    by_cases hpos : temp > 0
    · rw [if_pos hpos]
      have hdiv : temp / 10 ≤ fuel := by
        have := Nat.div_lt_self hpos (by norm_num : 1 < 10)
        omega
      rw [ih (temp / 10) _ hdiv, Nat.digits_def' (by norm_num : (1:ℕ) < 10) hpos]
      simp
    · rw [if_neg hpos]
      have ht : temp = 0 := by omega
      subst ht
      simp

theorem u64_to_string_data {n : Nat} (h : 0 < n) :
    (u64_to_string n).data
      = ((Nat.digits 10 n).map (fun d => Char.ofNat (d + 48))).reverse := by
  rw [u64_to_string, if_neg h.ne']
  rw [u64_loop_eq_digits n n [] le_rfl]
  simp

theorem u64_to_string_length {n : Nat} (h : 0 < n) :
    (u64_to_string n).length = Nat.log 10 n + 1 := by
  have hd : (u64_to_string n).length = (u64_to_string n).data.length := rfl
  rw [hd, u64_to_string_data h]
  simp [Nat.digits_len 10 n (by norm_num) h.ne']

theorem u64_to_string_length_of_range {n lo : Nat} (k : Nat)
    (hpow : 10 ^ k = lo) (h1 : lo ≤ n) (h2 : n < 10 * lo) :
    (u64_to_string n).length = k + 1 := by
  have hn : 0 < n := lt_of_lt_of_le (by positivity) (hpow ▸ h1)
  rw [u64_to_string_length hn]
  have hlog : Nat.log 10 n = k :=
    Nat.log_eq_of_pow_le_of_lt_pow (hpow ▸ h1)
      (by rw [pow_succ, mul_comm]; omega)
  rw [hlog]

theorem deliver_ok_elim {st : State} {seller_addr addr : Addr} {code : String}
    {t : Nat} {st' : State}
    (h : deliver_order st seller_addr addr code t = .ok st') :
    ∃ o, st.orders addr = some o
      ∧ o.seller_wallet = seller_addr
      ∧ o.status = ESCROW_STATUS_HOLDING
      ∧ o.delivery_code = code
      ∧ st' = set_order st addr
          { o with status := ESCROW_STATUS_DELIVERED,
                   delivered_at := t, updated_at := t } := by
  unfold deliver_order at h
  cases hm : st.orders addr with
  | none => simp only [hm] at h; exact Except.noConfusion h
  | some o =>
    simp only [hm] at h
    by_cases h1 : o.seller_wallet = seller_addr
    · by_cases h2 : o.status = ESCROW_STATUS_HOLDING
      · by_cases h3 : o.delivery_code = code
        · simp only [if_pos h1, if_pos h2, if_pos h3] at h
          exact ⟨o, rfl, h1, h2, h3, (Except.ok.injEq _ _).mp h |>.symm⟩
        · simp only [if_pos h1, if_pos h2, if_neg h3] at h
          exact Except.noConfusion h
      · simp only [if_pos h1, if_neg h2] at h
        exact Except.noConfusion h
    · simp only [if_neg h1] at h
      exact Except.noConfusion h

theorem confirm_ok_elim {st : State} {buyer_addr addr : Addr} {code : String}
    {t : Nat} {st' : State}
    (h : confirm_delivery_and_release_funds st buyer_addr addr code t = .ok st') :
    ∃ o, st.orders addr = some o
      ∧ o.buyer_wallet = buyer_addr
      ∧ o.status = ESCROW_STATUS_DELIVERED
      ∧ o.receiving_code = code
      ∧ st' = set_order (add_balance st o.seller_wallet o.locked_funds) addr
          { o with locked_funds := 0, status := ESCROW_STATUS_COMPLETED,
                   completed_at := t, updated_at := t } := by
  unfold confirm_delivery_and_release_funds at h
  cases hm : st.orders addr with
  | none => simp only [hm] at h; exact Except.noConfusion h
  | some o =>
    simp only [hm] at h
    by_cases h1 : o.buyer_wallet = buyer_addr
    · by_cases h2 : o.status = ESCROW_STATUS_DELIVERED
      · by_cases h3 : o.receiving_code = code
        · simp only [if_pos h1, if_pos h2, if_pos h3] at h
          exact ⟨o, rfl, h1, h2, h3, (Except.ok.injEq _ _).mp h |>.symm⟩
        · simp only [if_pos h1, if_pos h2, if_neg h3] at h
          exact Except.noConfusion h
      · simp only [if_pos h1, if_neg h2] at h
        exact Except.noConfusion h
    · simp only [if_neg h1] at h
      exact Except.noConfusion h

theorem cancel_ok_elim {st : State} {sender_addr addr : Addr} {reason : String}
    {t : Nat} {st' : State}
    (h : cancel_escrow_order st sender_addr addr reason t = .ok st') :
    ∃ o, st.orders addr = some o
      ∧ (o.buyer_wallet = sender_addr ∨ o.seller_wallet = sender_addr)
      ∧ o.status = ESCROW_STATUS_HOLDING
      ∧ st' = set_order (add_balance st o.buyer_wallet o.locked_funds) addr
          { o with locked_funds := 0, status := ESCROW_STATUS_CANCELLED,
                   updated_at := t } := by
  unfold cancel_escrow_order at h
  cases hm : st.orders addr with
  | none => simp only [hm] at h; exact Except.noConfusion h
  | some o =>
    simp only [hm] at h
    by_cases h1 : o.buyer_wallet = sender_addr ∨ o.seller_wallet = sender_addr
    · by_cases h2 : o.status = ESCROW_STATUS_HOLDING
      · simp only [if_pos h1, if_pos h2] at h
        exact ⟨o, rfl, h1, h2, (Except.ok.injEq _ _).mp h |>.symm⟩
      · simp only [if_pos h1, if_neg h2] at h
        exact Except.noConfusion h
    · simp only [if_neg h1] at h
      exact Except.noConfusion h

theorem initiate_ok_elim {hfb : Addr → Nat} {st : State}
    {buyer_addr product_obj_addr : Addr} {quantity : Nat}
    {shipping_address transaction_hash : String} {current_time : Nat}
    {fresh_addr : Addr} {st' : State}
    (h : initiate_trade_and_lock_funds hfb st buyer_addr product_obj_addr quantity
      shipping_address transaction_hash current_time fresh_addr = .ok st') :
    ∃ p dc rc, st.products product_obj_addr = some p
      ∧ profile_exists st buyer_addr = true
      ∧ is_buyer st buyer_addr = true
      ∧ 0 < quantity
      ∧ is_product_available st product_obj_addr = true
      ∧ quantity ≤ p.quantity_left
      ∧ p.price * quantity < u64Max
      ∧ p.price * quantity ≤ st.balances buyer_addr
      ∧ st.counter + 1 < u64Max
      ∧ generate_6_digit_code hfb (st.counter + 1) buyer_addr = .ok dc
      ∧ generate_4_digit_code hfb (st.counter + 1) p.seller_wallet = .ok rc
      ∧ st.orders fresh_addr = none
      ∧ st' = initiate_success_state st buyer_addr product_obj_addr fresh_addr
          quantity shipping_address transaction_hash dc rc current_time p := by
  unfold initiate_trade_and_lock_funds at h
  by_cases h1 : profile_exists st buyer_addr = true
  case neg => simp only [Bool.not_eq_true] at h1; rw [h1] at h; exact Except.noConfusion h
  rw [h1] at h
  by_cases h2 : is_buyer st buyer_addr = true
  case neg => simp only [Bool.not_eq_true] at h2; rw [h2] at h; exact Except.noConfusion h
  rw [h2] at h
  by_cases h3 : 0 < quantity
  case neg => rw [if_neg h3] at h; exact Except.noConfusion h
  rw [if_pos h3] at h
  by_cases h4 : is_product_available st product_obj_addr = true
  case neg => simp only [Bool.not_eq_true] at h4; rw [h4] at h; exact Except.noConfusion h
  rw [h4] at h
  simp only [if_true] at h
  cases hp : st.products product_obj_addr with
  | none => simp only [hp] at h; exact Except.noConfusion h
  | some p =>
  simp only [hp] at h
  by_cases h5 : quantity ≤ p.quantity_left
  case neg => rw [if_neg h5] at h; exact Except.noConfusion h
  rw [if_pos h5] at h
  by_cases h6 : p.price * quantity < u64Max
  case neg => rw [if_neg h6] at h; exact Except.noConfusion h
  rw [if_pos h6] at h
  by_cases h7 : p.price * quantity ≤ st.balances buyer_addr
  case neg => rw [if_neg h7] at h; exact Except.noConfusion h
  rw [if_pos h7] at h
  by_cases h8 : st.counter + 1 < u64Max
  case neg => rw [if_neg h8] at h; exact Except.noConfusion h
  rw [if_pos h8] at h
  cases hdc : generate_6_digit_code hfb (st.counter + 1) buyer_addr with
  | error e => simp only [hdc] at h; exact Except.noConfusion h
  | ok dc =>
  simp only [hdc] at h
  cases hrc : generate_4_digit_code hfb (st.counter + 1) p.seller_wallet with
  | error e => simp only [hrc] at h; exact Except.noConfusion h
  | ok rc =>
  simp only [hrc] at h
  by_cases h9 : (st.orders fresh_addr).isNone = true
  case neg =>
    simp only [Bool.not_eq_true] at h9
    rw [h9] at h
    exact Except.noConfusion h
  rw [h9] at h
  simp only [if_true] at h
  by_cases h10 : ((st.buyer_registries buyer_addr).getD
      { escrow_orders := [], order_count := 0 }).order_count + 1 < u64Max
  case neg => rw [if_neg h10] at h; exact Except.noConfusion h
  rw [if_pos h10] at h
  exact ⟨p, dc, rc, rfl, h1, h2, h3, h4, h5, h6, h7, h8, rfl, hrc,
    Option.isNone_iff_eq_none.mp h9, (Except.ok.injEq _ _).mp h |>.symm⟩

-- ======================== invariants ========================

/-- The locked-funds invariant of one order: custody equals
`total_amount` in the two live statuses and 0 in the three terminal
statuses. -/
def locked_funds_invariant (o : EscrowOrder) : Prop :=
  ((o.status = ESCROW_STATUS_HOLDING ∨ o.status = ESCROW_STATUS_DELIVERED) →
    o.locked_funds = o.total_amount)
  ∧ ((o.status = ESCROW_STATUS_COMPLETED ∨ o.status = ESCROW_STATUS_CANCELLED ∨
      o.status = ESCROW_STATUS_REFUNDED) → o.locked_funds = 0)

/-- The statuses any operation ever writes. -/
def status_in_written_set (o : EscrowOrder) : Prop :=
  o.status = ESCROW_STATUS_HOLDING ∨ o.status = ESCROW_STATUS_DELIVERED ∨
  o.status = ESCROW_STATUS_COMPLETED ∨ o.status = ESCROW_STATUS_CANCELLED

/-- Combined induction invariant on one order. -/
def order_inv (o : EscrowOrder) : Prop :=
  locked_funds_invariant o ∧ status_in_written_set o
  ∧ o.total_amount = o.unit_price * o.quantity

/-- Every stored order satisfies the combined invariant. -/
def state_inv (st : State) : Prop :=
  ∀ a o, st.orders a = some o → order_inv o

theorem reachable_state_inv {hfb : Addr → Nat} {st : State}
    (h : Reachable hfb st) : state_inv st := by
  induction h with
  | init profiles products balances =>
    intro a o ho
    exact Option.noConfusion ho
  | env profiles products balances _ ih =>
    intro a o ho
    exact ih a o ho
  | initiate_step buyer_addr product_obj_addr quantity shipping transaction t fresh _ hok ih =>
    obtain ⟨p, dc, rc, hp, _, _, _, _, _, _, _, _, _, _, hnone, hst'⟩ :=
      initiate_ok_elim hok
    subst hst'
    intro a o ho
    simp only [initiate_success_state] at ho
    by_cases ha : a = fresh
    · rw [if_pos ha] at ho
      cases ho
      refine ⟨⟨fun _ => rfl, fun hc => ?_⟩, Or.inl rfl, rfl⟩
      simp [ESCROW_STATUS_HOLDING, ESCROW_STATUS_COMPLETED,
        ESCROW_STATUS_CANCELLED, ESCROW_STATUS_REFUNDED] at hc
    · rw [if_neg ha] at ho
      exact ih a o ho
  | deliver_step seller_addr addr code t _ hok ih =>
    obtain ⟨o0, hm, hsell, hstat, hcode, hst'⟩ := deliver_ok_elim hok
    subst hst'
    intro a o ho
    simp only [set_order] at ho
    by_cases ha : a = addr
    · rw [if_pos ha] at ho
      cases ho
      have hpre := ih addr o0 hm
      refine ⟨⟨fun _ => hpre.1.1 (Or.inl hstat), fun hc => ?_⟩,
        Or.inr (Or.inl rfl), hpre.2.2⟩
      simp [ESCROW_STATUS_DELIVERED, ESCROW_STATUS_COMPLETED,
        ESCROW_STATUS_CANCELLED, ESCROW_STATUS_REFUNDED] at hc
    · rw [if_neg ha] at ho
      exact ih a o ho
  | confirm_step buyer_addr addr code t _ hok ih =>
    obtain ⟨o0, hm, hb, hstat, hcode, hst'⟩ := confirm_ok_elim hok
    subst hst'
    intro a o ho
    simp only [set_order, add_balance] at ho
    by_cases ha : a = addr
    · rw [if_pos ha] at ho
      cases ho
      have hpre := ih addr o0 hm
      refine ⟨⟨fun hc => ?_, fun _ => rfl⟩,
        Or.inr (Or.inr (Or.inl rfl)), hpre.2.2⟩
      simp [ESCROW_STATUS_COMPLETED, ESCROW_STATUS_HOLDING,
        ESCROW_STATUS_DELIVERED] at hc
    · rw [if_neg ha] at ho
      exact ih a o ho
  | cancel_step sender_addr addr reason t _ hok ih =>
    obtain ⟨o0, hm, hwho, hstat, hst'⟩ := cancel_ok_elim hok
    subst hst'
    intro a o ho
    simp only [set_order, add_balance] at ho
    by_cases ha : a = addr
    · rw [if_pos ha] at ho
      cases ho
      have hpre := ih addr o0 hm
      refine ⟨⟨fun hc => ?_, fun _ => rfl⟩,
        Or.inr (Or.inr (Or.inr rfl)), hpre.2.2⟩
      simp [ESCROW_STATUS_CANCELLED, ESCROW_STATUS_HOLDING,
        ESCROW_STATUS_DELIVERED] at hc
    · rw [if_neg ha] at ho
      exact ih a o ho

-- ======================== C10 ========================

/-- C10: the index views are total on unknown accounts.  An address with
no `BuyerEscrowRegistry` resource (it never initiated a trade) gets the
empty list from `get_buyer_escrow_orders` and 0 from
`get_buyer_order_count`, and an address absent from the global seller
registry gets the empty list from `get_seller_escrow_orders`; none of
these calls aborts with a not-found error. -/
theorem C10_views_total_on_unknown_accounts (st : State) (a : Addr) :
    (st.buyer_registries a = none → get_buyer_escrow_orders st a = [])
    ∧ (st.buyer_registries a = none → get_buyer_order_count st a = 0)
    ∧ (a ∉ st.seller_registry.seller_addresses →
        get_seller_escrow_orders st a = .ok []) := by
  refine ⟨fun h => ?_, fun h => ?_, fun h => ?_⟩
  · rw [get_buyer_escrow_orders, h]
  · rw [get_buyer_order_count, h]
  · rw [get_seller_escrow_orders]
    have hv := vector_index_of_not_mem h
    simp only [hv, if_neg]
    simp

/-- Closed instance of C10 at a concrete state: address 77 has never
traded in `demoSt3` and all three views answer emptily. -/
theorem C10_views_total_witness :
    get_buyer_escrow_orders demoSt3 77 = []
    ∧ get_buyer_order_count demoSt3 77 = 0
    ∧ get_seller_escrow_orders demoSt3 77 = .ok [] := by
  obtain ⟨h1, h2, h3⟩ := C10_views_total_on_unknown_accounts demoSt3 77
  exact ⟨h1 (by decide), h2 (by decide), h3 (by decide)⟩

-- ======================== C7 ========================

/-- C7: code generation.  For every trade id and address (whose hash
first byte is `hfb a`), as long as the u64 seed arithmetic does not
overflow-abort, the delivery code is exactly the decimal string of
`100000 + ((id + first_byte) % 900000)` — a value in 100000–999999
rendered as exactly 6 decimal digits — and the receiving code is
exactly the decimal string of `1000 + ((id * 7 + first_byte) % 9000)` —
a value in 1000–9999 rendered as exactly 4 decimal digits.  The
rendering is pinned down as the standard base-10 digit expansion
(`Nat.digits`, most significant first, digit d as ASCII `d + 48`), and
both codes are plain functions of (trade id, address) — determinism is
definitional. -/
theorem C7_code_generation (hfb : Addr → Nat) :
    (∀ id a, id + hfb a < u64Max →
      generate_6_digit_code hfb id a
        = .ok (u64_to_string (100000 + (id + hfb a) % 900000))
      ∧ 100000 ≤ 100000 + (id + hfb a) % 900000
      ∧ 100000 + (id + hfb a) % 900000 ≤ 999999
      ∧ (u64_to_string (100000 + (id + hfb a) % 900000)).length = 6
      ∧ (u64_to_string (100000 + (id + hfb a) % 900000)).data
          = ((Nat.digits 10 (100000 + (id + hfb a) % 900000)).map
              (fun d => Char.ofNat (d + 48))).reverse)
    ∧ (∀ id a, id * 7 + hfb a < u64Max →
      generate_4_digit_code hfb id a
        = .ok (u64_to_string (1000 + (id * 7 + hfb a) % 9000))
      ∧ 1000 ≤ 1000 + (id * 7 + hfb a) % 9000
      ∧ 1000 + (id * 7 + hfb a) % 9000 ≤ 9999
      ∧ (u64_to_string (1000 + (id * 7 + hfb a) % 9000)).length = 4
      ∧ (u64_to_string (1000 + (id * 7 + hfb a) % 9000)).data
          = ((Nat.digits 10 (1000 + (id * 7 + hfb a) % 9000)).map
              (fun d => Char.ofNat (d + 48))).reverse) := by
  constructor
  · intro id a h
    have hmod : (id + hfb a) % 900000 < 900000 := Nat.mod_lt _ (by norm_num)
    refine ⟨?_, by omega, by omega, ?_, ?_⟩
    · rw [generate_6_digit_code]
      simp only [if_pos h]
    · exact u64_to_string_length_of_range 5 (by norm_num : 10 ^ 5 = 100000) (by omega) (by omega)
    · exact u64_to_string_data (by omega)
  · intro id a h
    have hmod : (id * 7 + hfb a) % 9000 < 9000 := Nat.mod_lt _ (by norm_num)
    refine ⟨?_, by omega, by omega, ?_, ?_⟩
    · rw [generate_4_digit_code]
      simp only [if_pos h]
    · exact u64_to_string_length_of_range 3 (by norm_num : 10 ^ 3 = 1000) (by omega) (by omega)
    · exact u64_to_string_data (by omega)

/-- Closed instance of C7 at trade id 1 and address 0 under `demoHfb`. -/
theorem C7_code_generation_witness :
    generate_6_digit_code demoHfb 1 0
      = .ok (u64_to_string (100000 + (1 + demoHfb 0) % 900000))
    ∧ (u64_to_string (100000 + (1 + demoHfb 0) % 900000)).length = 6
    ∧ generate_4_digit_code demoHfb 1 0
      = .ok (u64_to_string (1000 + (1 * 7 + demoHfb 0) % 9000))
    ∧ (u64_to_string (1000 + (1 * 7 + demoHfb 0) % 9000)).length = 4 := by
  obtain h6 := (C7_code_generation demoHfb).1 1 0 (by decide)
  obtain h4 := (C7_code_generation demoHfb).2 1 0 (by decide)
  exact ⟨h6.1, h6.2.2.2.1, h4.1, h4.2.2.2.1⟩

-- ======================== C2 ========================

/-- Fallback order used to read a known-present order out of a state. -/
def demoOrderAt (st : State) (a : Addr) : EscrowOrder :=
  (st.orders a).getD
    { escrow_order_id := 0, product_obj_addr := 0, quantity := 0,
      buyer_wallet := 0, seller_wallet := 0, unit_price := 0, total_amount := 0,
      transaction_hash := "", delivery_code := "", receiving_code := "",
      status := 0, locked_funds := 0, shipping_address := "", created_at := 0,
      updated_at := 0, delivered_at := 0, completed_at := 0 }

/-- C2: the locked-funds invariant holds in every reachable state and is
therefore preserved by every operation: each stored `EscrowOrder` has
`locked_funds` strictly equal to `total_amount` (which is
`unit_price * quantity`) whenever its status is Holding or Delivered,
and strictly equal to 0 whenever its status is Completed, Cancelled or
Refunded.  Release and refund are atomic and total: the aborting
branches write nothing (Move aborts roll back), and the succeeding
branches of confirm and cancel move the whole custody at once, which is
exactly why the invariant survives induction over all operations. -/
theorem C2_locked_funds_invariant_reachable (hfb : Addr → Nat) (st : State)
    (h : Reachable hfb st) :
    ∀ a o, st.orders a = some o →
      locked_funds_invariant o ∧ o.total_amount = o.unit_price * o.quantity :=
  fun a o ho =>
    ⟨(reachable_state_inv h a o ho).1, (reachable_state_inv h a o ho).2.2⟩

/-- Closed instance of C2: the order of the concrete scenario after
delivery (status Delivered, 10 locked = 5 * 2). -/
theorem C2_locked_funds_invariant_witness :
    locked_funds_invariant (demoOrderAt demoSt2 50)
    ∧ (demoOrderAt demoSt2 50).total_amount
        = (demoOrderAt demoSt2 50).unit_price * (demoOrderAt demoSt2 50).quantity :=
  C2_locked_funds_invariant_reachable demoHfb demoSt2 demo_reachable_st2
    50 (demoOrderAt demoSt2 50) rfl

-- ======================== C8 ========================

/-- C8: the statuses Refunded (6) and Initiated (1) are never assigned.
In every reachable state every stored order has status in
{Holding, Delivered, Completed, Cancelled} — in particular never
Refunded and never Initiated — because `initiate_trade_and_lock_funds`
creates every record directly in Holding and the three transitions
write only Delivered, Completed and Cancelled respectively (the last
four conjuncts). -/
theorem C8_refunded_and_initiated_unreachable (hfb : Addr → Nat) :
    (∀ st, Reachable hfb st → ∀ a o, st.orders a = some o →
      status_in_written_set o
      ∧ o.status ≠ ESCROW_STATUS_REFUNDED
      ∧ o.status ≠ ESCROW_STATUS_INITIATED)
    ∧ (∀ st buyer_addr product_obj_addr quantity shipping_address transaction_hash
        current_time fresh_addr st',
        initiate_trade_and_lock_funds hfb st buyer_addr product_obj_addr quantity
          shipping_address transaction_hash current_time fresh_addr = .ok st' →
        ∃ o, st'.orders fresh_addr = some o ∧ o.status = ESCROW_STATUS_HOLDING)
    ∧ (∀ st seller_addr addr code t st' o, st.orders addr = some o →
        deliver_order st seller_addr addr code t = .ok st' →
        ∃ o', st'.orders addr = some o' ∧ o'.status = ESCROW_STATUS_DELIVERED)
    ∧ (∀ st buyer_addr addr code t st' o, st.orders addr = some o →
        confirm_delivery_and_release_funds st buyer_addr addr code t = .ok st' →
        ∃ o', st'.orders addr = some o' ∧ o'.status = ESCROW_STATUS_COMPLETED)
    ∧ (∀ st sender_addr addr reason t st' o, st.orders addr = some o →
        cancel_escrow_order st sender_addr addr reason t = .ok st' →
        ∃ o', st'.orders addr = some o' ∧ o'.status = ESCROW_STATUS_CANCELLED) := by
  refine ⟨?_, ?_, ?_, ?_, ?_⟩
  · intro st hr a o ho
    have hinv := (reachable_state_inv hr a o ho).2.1
    refine ⟨hinv, ?_, ?_⟩ <;>
      rcases hinv with h | h | h | h <;>
      simp [h, ESCROW_STATUS_HOLDING, ESCROW_STATUS_DELIVERED,
        ESCROW_STATUS_COMPLETED, ESCROW_STATUS_CANCELLED,
        ESCROW_STATUS_REFUNDED, ESCROW_STATUS_INITIATED]
  · intro st buyer_addr product_obj_addr quantity shipping_address transaction_hash
      current_time fresh_addr st' hok
    obtain ⟨p, dc, rc, hp, _, _, _, _, _, _, _, _, _, _, hnone, hst'⟩ :=
      initiate_ok_elim hok
    subst hst'
    simp [initiate_success_state]
  · intro st seller_addr addr code t st' o hm hok
    obtain ⟨o0, hm0, _, _, _, hst'⟩ := deliver_ok_elim hok
    subst hst'
    simp [set_order]
  · intro st buyer_addr addr code t st' o hm hok
    obtain ⟨o0, hm0, _, _, _, hst'⟩ := confirm_ok_elim hok
    subst hst'
    simp [set_order]
  · intro st sender_addr addr reason t st' o hm hok
    obtain ⟨o0, hm0, _, _, hst'⟩ := cancel_ok_elim hok
    subst hst'
    simp [set_order]

/-- Closed instance of C8: the completed order of the concrete scenario
has a written status, not Refunded and not Initiated. -/
theorem C8_refunded_unreachable_witness :
    status_in_written_set (demoOrderAt demoSt3 50)
    ∧ (demoOrderAt demoSt3 50).status ≠ ESCROW_STATUS_REFUNDED
    ∧ (demoOrderAt demoSt3 50).status ≠ ESCROW_STATUS_INITIATED :=
  (C8_refunded_and_initiated_unreachable demoHfb).1 demoSt3 demo_reachable_st3
    50 (demoOrderAt demoSt3 50) rfl

-- ======================== C9 ========================

/-- C9: frame condition on initiate.  `initiate_trade_and_lock_funds`
reads the catalog (availability, stock, price, seller) but writes no
product field: on success the whole products map — in particular the
traded product's record — is identical before and after.  (On abort the
transaction rolls back, so nothing changes either.) -/
theorem C9_initiate_preserves_products (hfb : Addr → Nat) (st : State)
    (buyer_addr product_obj_addr : Addr) (quantity : Nat)
    (shipping_address transaction_hash : String) (current_time : Nat)
    (fresh_addr : Addr) (st' : State)
    (h : initiate_trade_and_lock_funds hfb st buyer_addr product_obj_addr quantity
      shipping_address transaction_hash current_time fresh_addr = .ok st') :
    st'.products = st.products
    ∧ st'.products product_obj_addr = st.products product_obj_addr := by
  obtain ⟨p, dc, rc, hp, _, _, _, _, _, _, _, _, _, _, hnone, hst'⟩ :=
    initiate_ok_elim h
  subst hst'
  exact ⟨rfl, rfl⟩

/-- Closed instance of C9 at the concrete scenario. -/
theorem C9_initiate_preserves_products_witness :
    demoSt1.products = demoSt0.products
    ∧ demoSt1.products 10 = demoSt0.products 10 :=
  C9_initiate_preserves_products demoHfb demoSt0 1 10 2 "ship" "tx" 1000 50
    demoSt1 demo_initiate_ok

-- ======================== C5 ========================

/-- C5: authorization dominates code correctness.  On an existing trade,
`deliver_order` by any caller other than the trade's `seller_wallet`
aborts with `ERR_ONLY_SELLER_CAN_DELIVER` for every input code — the
correct delivery code included — and
`confirm_delivery_and_release_funds` by any caller other than the
trade's `buyer_wallet` aborts with `ERR_ONLY_BUYER_CAN_CONFIRM` for
every input code.  An abort rolls the transaction back, so no state
change occurs. -/
theorem C5_authorization_dominates_codes :
    (∀ st seller_addr addr code t o, st.orders addr = some o →
      seller_addr ≠ o.seller_wallet →
      deliver_order st seller_addr addr code t
        = .error (.abort ERR_ONLY_SELLER_CAN_DELIVER))
    ∧ (∀ st buyer_addr addr code t o, st.orders addr = some o →
      buyer_addr ≠ o.buyer_wallet →
      confirm_delivery_and_release_funds st buyer_addr addr code t
        = .error (.abort ERR_ONLY_BUYER_CAN_CONFIRM)) := by
  constructor
  · intro st seller_addr addr code t o hm hne
    unfold deliver_order
    simp only [hm]
    rw [if_neg (fun h => hne h.symm)]
  · intro st buyer_addr addr code t o hm hne
    unfold confirm_delivery_and_release_funds
    simp only [hm]
    rw [if_neg (fun h => hne h.symm)]

/-- Closed instance of C5: the stranger 999 can neither deliver (even
with the correct code "100001") nor confirm (even with the correct code
"1007") in the concrete scenario. -/
theorem C5_authorization_dominates_witness :
    deliver_order demoSt1 999 50 "100001" 2000
      = .error (.abort ERR_ONLY_SELLER_CAN_DELIVER)
    ∧ confirm_delivery_and_release_funds demoSt2 999 50 "1007" 3000
      = .error (.abort ERR_ONLY_BUYER_CAN_CONFIRM) :=
  ⟨C5_authorization_dominates_codes.1 demoSt1 999 50 "100001" 2000
      (demoOrderAt demoSt1 50) rfl (by decide),
   C5_authorization_dominates_codes.2 demoSt2 999 50 "1007" 3000
      (demoOrderAt demoSt2 50) rfl (by decide)⟩

-- ======================== C4 ========================

/-- C4: code gating with atomic failure.  A `deliver_order` call by the
trade's seller on a Holding trade with an input different from the
stored `delivery_code` aborts with `ERR_INVALID_DELIVERY_CODE`; a
`confirm_delivery_and_release_funds` call by the trade's buyer on a
Delivered trade with a wrong receiving code aborts with
`ERR_INVALID_RECEIVING_CODE`.  Both functions perform all their writes
after the code assert, and a Move abort rolls back in any case, so the
record — status, `delivered_at`, locked funds, everything — is exactly
as before and retries remain possible. -/
theorem C4_code_gating :
    (∀ st addr code t o, st.orders addr = some o →
      o.status = ESCROW_STATUS_HOLDING →
      code ≠ o.delivery_code →
      deliver_order st o.seller_wallet addr code t
        = .error (.abort ERR_INVALID_DELIVERY_CODE))
    ∧ (∀ st addr code t o, st.orders addr = some o →
      o.status = ESCROW_STATUS_DELIVERED →
      code ≠ o.receiving_code →
      confirm_delivery_and_release_funds st o.buyer_wallet addr code t
        = .error (.abort ERR_INVALID_RECEIVING_CODE)) := by
  constructor
  · intro st addr code t o hm hstat hne
    unfold deliver_order
    simp only [hm]
    rw [if_pos trivial, if_pos hstat, if_neg (fun h => hne h.symm)]
  · intro st addr code t o hm hstat hne
    unfold confirm_delivery_and_release_funds
    simp only [hm]
    rw [if_pos trivial, if_pos hstat, if_neg (fun h => hne h.symm)]

/-- Closed instance of C4: wrong codes from the right parties abort with
the code-mismatch errors in the concrete scenario. -/
theorem C4_code_gating_witness :
    deliver_order demoSt1 2 50 "999999" 2000
      = .error (.abort ERR_INVALID_DELIVERY_CODE)
    ∧ confirm_delivery_and_release_funds demoSt2 1 50 "0000" 3000
      = .error (.abort ERR_INVALID_RECEIVING_CODE) :=
  ⟨C4_code_gating.1 demoSt1 50 "999999" 2000
      (demoOrderAt demoSt1 50) rfl (by decide) (by decide),
   C4_code_gating.2 demoSt2 50 "0000" 3000
      (demoOrderAt demoSt2 50) rfl (by decide) (by decide)⟩

-- ======================== C3 ========================

/-- C3: terminal states are absorbing and transitions never move back.
On a trade whose status is Completed or Cancelled, every subsequent
`deliver_order`, `confirm_delivery_and_release_funds` or
`cancel_escrow_order` call — by any caller with any code — aborts
(changing nothing, since Move aborts roll back), and for the call's
designated party the abort carries precisely the invalid-state error
(`ERR_ORDER_NOT_HOLDING`, `ERR_ORDER_NOT_DELIVERED`,
`ERR_CANNOT_CANCEL`; a wrong caller is rejected by the earlier
authorization assert).  The last three conjuncts give monotonicity — no
successful transition ever writes Holding back, and in particular no
transition call executed twice can release or refund twice. -/
theorem C3_terminal_states_absorbing :
    (∀ st addr o, st.orders addr = some o →
      (o.status = ESCROW_STATUS_COMPLETED ∨ o.status = ESCROW_STATUS_CANCELLED) →
      (∀ caller code t,
        (∃ e, deliver_order st caller addr code t = .error e)
        ∧ (caller = o.seller_wallet →
            deliver_order st caller addr code t
              = .error (.abort ERR_ORDER_NOT_HOLDING)))
      ∧ (∀ caller code t,
        (∃ e, confirm_delivery_and_release_funds st caller addr code t = .error e)
        ∧ (caller = o.buyer_wallet →
            confirm_delivery_and_release_funds st caller addr code t
              = .error (.abort ERR_ORDER_NOT_DELIVERED)))
      ∧ (∀ caller reason t,
        (∃ e, cancel_escrow_order st caller addr reason t = .error e)
        ∧ ((caller = o.buyer_wallet ∨ caller = o.seller_wallet) →
            cancel_escrow_order st caller addr reason t
              = .error (.abort ERR_CANNOT_CANCEL))))
    ∧ (∀ st caller addr code t st',
        deliver_order st caller addr code t = .ok st' →
        ∃ o', st'.orders addr = some o' ∧ o'.status ≠ ESCROW_STATUS_HOLDING)
    ∧ (∀ st caller addr code t st',
        confirm_delivery_and_release_funds st caller addr code t = .ok st' →
        ∃ o', st'.orders addr = some o' ∧ o'.status ≠ ESCROW_STATUS_HOLDING)
    ∧ (∀ st caller addr reason t st',
        cancel_escrow_order st caller addr reason t = .ok st' →
        ∃ o', st'.orders addr = some o' ∧ o'.status ≠ ESCROW_STATUS_HOLDING) := by
  refine ⟨?_, ?_, ?_, ?_⟩
  · intro st addr o hm hterm
    have hnh : o.status ≠ ESCROW_STATUS_HOLDING := by
      rcases hterm with h | h <;>
        simp [h, ESCROW_STATUS_HOLDING, ESCROW_STATUS_COMPLETED, ESCROW_STATUS_CANCELLED]
    have hnd : o.status ≠ ESCROW_STATUS_DELIVERED := by
      rcases hterm with h | h <;>
        simp [h, ESCROW_STATUS_DELIVERED, ESCROW_STATUS_COMPLETED, ESCROW_STATUS_CANCELLED]
    refine ⟨?_, ?_, ?_⟩
    · intro caller code t
      by_cases hc : o.seller_wallet = caller
      · have he : deliver_order st caller addr code t
            = .error (.abort ERR_ORDER_NOT_HOLDING) := by
          unfold deliver_order
          simp only [hm]
          rw [if_pos hc, if_neg hnh]
        exact ⟨⟨_, he⟩, fun _ => he⟩
      · have he : deliver_order st caller addr code t
            = .error (.abort ERR_ONLY_SELLER_CAN_DELIVER) := by
          unfold deliver_order
          simp only [hm]
          rw [if_neg hc]
        exact ⟨⟨_, he⟩, fun hca => (hc hca.symm).elim⟩
    · intro caller code t
      by_cases hc : o.buyer_wallet = caller
      · have he : confirm_delivery_and_release_funds st caller addr code t
            = .error (.abort ERR_ORDER_NOT_DELIVERED) := by
          unfold confirm_delivery_and_release_funds
          simp only [hm]
          rw [if_pos hc, if_neg hnd]
        exact ⟨⟨_, he⟩, fun _ => he⟩
      · have he : confirm_delivery_and_release_funds st caller addr code t
            = .error (.abort ERR_ONLY_BUYER_CAN_CONFIRM) := by
          unfold confirm_delivery_and_release_funds
          simp only [hm]
          rw [if_neg hc]
        exact ⟨⟨_, he⟩, fun hca => (hc hca.symm).elim⟩
    · intro caller reason t
      by_cases hc : o.buyer_wallet = caller ∨ o.seller_wallet = caller
      · have he : cancel_escrow_order st caller addr reason t
            = .error (.abort ERR_CANNOT_CANCEL) := by
          unfold cancel_escrow_order
          simp only [hm]
          rw [if_pos hc, if_neg hnh]
        exact ⟨⟨_, he⟩, fun _ => he⟩
      · have he : cancel_escrow_order st caller addr reason t
            = .error (.abort ERR_ONLY_BUYER_CAN_CONFIRM) := by
          unfold cancel_escrow_order
          simp only [hm]
          rw [if_neg hc]
        refine ⟨⟨_, he⟩, fun hca => ?_⟩
        exact (hc (hca.imp Eq.symm Eq.symm)).elim
  · intro st caller addr code t st' hok
    obtain ⟨o0, hm0, _, _, _, hst'⟩ := deliver_ok_elim hok
    subst hst'
    simp [set_order, ESCROW_STATUS_DELIVERED, ESCROW_STATUS_HOLDING]
  · intro st caller addr code t st' hok
    obtain ⟨o0, hm0, _, _, _, hst'⟩ := confirm_ok_elim hok
    subst hst'
    simp [set_order, ESCROW_STATUS_COMPLETED, ESCROW_STATUS_HOLDING]
  · intro st caller addr reason t st' hok
    obtain ⟨o0, hm0, _, _, hst'⟩ := cancel_ok_elim hok
    subst hst'
    simp [set_order, ESCROW_STATUS_CANCELLED, ESCROW_STATUS_HOLDING]

/-- Closed instance of C3: on the Completed order of the concrete
scenario, a second confirm by the buyer, a deliver by the seller and a
cancel by the buyer all abort with the invalid-state errors. -/
theorem C3_terminal_states_absorbing_witness :
    deliver_order demoSt3 2 50 "100001" 4000
      = .error (.abort ERR_ORDER_NOT_HOLDING)
    ∧ confirm_delivery_and_release_funds demoSt3 1 50 "1007" 4000
      = .error (.abort ERR_ORDER_NOT_DELIVERED)
    ∧ cancel_escrow_order demoSt3 1 50 "r" 4000
      = .error (.abort ERR_CANNOT_CANCEL) := by
  obtain ⟨hd, hcf, hcl⟩ :=
    (C3_terminal_states_absorbing.1 demoSt3 50 (demoOrderAt demoSt3 50) rfl
      (Or.inl (by decide)))
  exact ⟨(hd 2 "100001" 4000).2 (by decide),
    (hcf 1 "1007" 4000).2 (by decide),
    (hcl 1 "r" 4000).2 (Or.inl (by decide))⟩

-- ======================== C6 ========================

/-- C6: cancellation semantics.  On an existing trade,
`cancel_escrow_order` succeeds exactly when the caller is the trade's
buyer or seller and the status is Holding; on success the entire locked
amount is deposited back to the buyer's wallet (also when the seller is
the canceller), the record keeps no custody and its status becomes
Cancelled; and for a party calling on a trade in status Delivered,
Completed or Cancelled it aborts with `ERR_CANNOT_CANCEL`. -/
theorem C6_cancellation_semantics (st : State) (sender_addr addr : Addr)
    (reason : String) (t : Nat) (o : EscrowOrder)
    (hm : st.orders addr = some o) :
    ((∃ st', cancel_escrow_order st sender_addr addr reason t = .ok st')
      ↔ ((o.buyer_wallet = sender_addr ∨ o.seller_wallet = sender_addr)
          ∧ o.status = ESCROW_STATUS_HOLDING))
    ∧ (∀ st', cancel_escrow_order st sender_addr addr reason t = .ok st' →
        st'.balances o.buyer_wallet = st.balances o.buyer_wallet + o.locked_funds
        ∧ st' = set_order (add_balance st o.buyer_wallet o.locked_funds) addr
            { o with locked_funds := 0, status := ESCROW_STATUS_CANCELLED,
                     updated_at := t })
    ∧ ((o.buyer_wallet = sender_addr ∨ o.seller_wallet = sender_addr) →
        (o.status = ESCROW_STATUS_DELIVERED ∨ o.status = ESCROW_STATUS_COMPLETED ∨
          o.status = ESCROW_STATUS_CANCELLED) →
        cancel_escrow_order st sender_addr addr reason t
          = .error (.abort ERR_CANNOT_CANCEL)) := by
  refine ⟨⟨?_, ?_⟩, ?_, ?_⟩
  · rintro ⟨st', hok⟩
    obtain ⟨o0, hm0, hwho, hstat, _⟩ := cancel_ok_elim hok
    rw [hm] at hm0
    cases hm0
    exact ⟨hwho, hstat⟩
  · rintro ⟨hwho, hstat⟩
    refine ⟨set_order (add_balance st o.buyer_wallet o.locked_funds) addr
      { o with locked_funds := 0, status := ESCROW_STATUS_CANCELLED,
               updated_at := t }, ?_⟩
    unfold cancel_escrow_order
    simp only [hm]
    rw [if_pos hwho, if_pos hstat]
  · intro st' hok
    obtain ⟨o0, hm0, hwho, hstat, hst'⟩ := cancel_ok_elim hok
    rw [hm] at hm0
    cases hm0
    subst hst'
    refine ⟨?_, rfl⟩
    simp [set_order, add_balance]
  · intro hwho hstat
    have hnh : o.status ≠ ESCROW_STATUS_HOLDING := by
      rcases hstat with h | h | h <;>
        simp [h, ESCROW_STATUS_HOLDING, ESCROW_STATUS_DELIVERED,
          ESCROW_STATUS_COMPLETED, ESCROW_STATUS_CANCELLED]
    unfold cancel_escrow_order
    simp only [hm]
    rw [if_pos hwho, if_neg hnh]

/-- Closed instance of C6: seller 2 cancels the Holding order of the
concrete scenario and buyer 1 gets the 10 locked units back. -/
theorem C6_cancellation_semantics_witness :
    demoStC.balances 1 = demoSt1.balances 1 + (demoOrderAt demoSt1 50).locked_funds :=
  ((C6_cancellation_semantics demoSt1 2 50 "r" 2500 (demoOrderAt demoSt1 50) rfl).2.1
    demoStC demo_cancel_ok).1

-- ======================== C1 ========================

/-- C1: value conservation across a trade's lifecycle.  A successful
`initiate_trade_and_lock_funds` withdraws exactly `unit_price *
quantity` from the buyer's balance (and nobody else's) into the new
record's custody, whose `total_amount` equals the same product;  a
successful `confirm_delivery_and_release_funds` deposits exactly the
record's custody — equal to `total_amount`, i.e. the amount withdrawn
at initiation, in every reachable state — to the seller's balance and
leaves the record with custody 0;  a successful `cancel_escrow_order`
deposits exactly the same amount back to the buyer's balance.  So for
every trade what was withdrawn from the buyer is exactly what is later
deposited to the seller (confirm) or back to the buyer (cancel): value
is never created or destroyed, only moved. -/
theorem C1_value_conservation (hfb : Addr → Nat) :
    (∀ st buyer_addr product_obj_addr quantity shipping_address transaction_hash
        current_time fresh_addr st' p,
      st.products product_obj_addr = some p →
      initiate_trade_and_lock_funds hfb st buyer_addr product_obj_addr quantity
        shipping_address transaction_hash current_time fresh_addr = .ok st' →
      st'.balances buyer_addr + p.price * quantity = st.balances buyer_addr
      ∧ (∃ o, st'.orders fresh_addr = some o
          ∧ o.locked_funds = p.price * quantity
          ∧ o.total_amount = p.price * quantity
          ∧ o.unit_price = p.price
          ∧ o.quantity = quantity
          ∧ o.buyer_wallet = buyer_addr
          ∧ o.seller_wallet = p.seller_wallet)
      ∧ (∀ a, a ≠ buyer_addr → st'.balances a = st.balances a))
    ∧ (∀ st buyer_addr addr code t st' o, st.orders addr = some o →
      confirm_delivery_and_release_funds st buyer_addr addr code t = .ok st' →
      st'.balances o.seller_wallet = st.balances o.seller_wallet + o.locked_funds
      ∧ (Reachable hfb st → st'.balances o.seller_wallet
          = st.balances o.seller_wallet + o.total_amount)
      ∧ (∃ o', st'.orders addr = some o' ∧ o'.locked_funds = 0
          ∧ o'.total_amount = o.total_amount)
      ∧ (∀ a, a ≠ o.seller_wallet → st'.balances a = st.balances a))
    ∧ (∀ st sender_addr addr reason t st' o, st.orders addr = some o →
      cancel_escrow_order st sender_addr addr reason t = .ok st' →
      st'.balances o.buyer_wallet = st.balances o.buyer_wallet + o.locked_funds
      ∧ (Reachable hfb st → st'.balances o.buyer_wallet
          = st.balances o.buyer_wallet + o.total_amount)
      ∧ (∃ o', st'.orders addr = some o' ∧ o'.locked_funds = 0
          ∧ o'.total_amount = o.total_amount)
      ∧ (∀ a, a ≠ o.buyer_wallet → st'.balances a = st.balances a)) := by
  refine ⟨?_, ?_, ?_⟩
  · intro st buyer_addr product_obj_addr quantity shipping_address transaction_hash
      current_time fresh_addr st' p hp hok
    obtain ⟨p', dc, rc, hp', _, _, _, _, _, _, h7, _, _, _, hnone, hst'⟩ :=
      initiate_ok_elim hok
    rw [hp] at hp'
    cases hp'
    subst hst'
    refine ⟨?_, ?_, ?_⟩
    · simp only [initiate_success_state]
      rw [if_pos trivial]
      exact Nat.sub_add_cancel h7
    · simp [initiate_success_state]
    · intro a ha
      simp only [initiate_success_state]
      simp only [if_neg ha]
  · intro st buyer_addr addr code t st' o hm hok
    obtain ⟨o0, hm0, _, hstat, _, hst'⟩ := confirm_ok_elim hok
    rw [hm] at hm0
    cases hm0
    subst hst'
    refine ⟨?_, ?_, ?_, ?_⟩
    · simp [set_order, add_balance]
    · intro hr
      have hlocked := (reachable_state_inv hr addr o hm).1.1 (Or.inr hstat)
      rw [hlocked] at *
      simp [set_order, add_balance]
    · simp [set_order]
    · intro a ha
      simp [set_order, add_balance, if_neg ha]
  · intro st sender_addr addr reason t st' o hm hok
    obtain ⟨o0, hm0, _, hstat, hst'⟩ := cancel_ok_elim hok
    rw [hm] at hm0
    cases hm0
    subst hst'
    refine ⟨?_, ?_, ?_, ?_⟩
    · simp [set_order, add_balance]
    · intro hr
      have hlocked := (reachable_state_inv hr addr o hm).1.1 (Or.inl hstat)
      rw [hlocked] at *
      simp [set_order, add_balance]
    · simp [set_order]
    · intro a ha
      simp [set_order, add_balance, if_neg ha]

/-- Closed instance of C1 on the concrete scenario: initiation moves
exactly 5 * 2 = 10 out of buyer 1's balance; confirmation deposits
exactly the custody to seller 2; cancellation (the alternative branch)
deposits exactly the custody back to buyer 1. -/
theorem C1_value_conservation_witness :
    demoSt1.balances 1 + demoProduct.price * 2 = demoSt0.balances 1
    ∧ demoSt3.balances 2 = demoSt2.balances 2 + (demoOrderAt demoSt2 50).locked_funds
    ∧ demoStC.balances 1 = demoSt1.balances 1 + (demoOrderAt demoSt1 50).locked_funds :=
  ⟨((C1_value_conservation demoHfb).1 demoSt0 1 10 2 "ship" "tx" 1000 50 demoSt1
      demoProduct rfl demo_initiate_ok).1,
   ((C1_value_conservation demoHfb).2.1 demoSt2 1 50 "1007" 3000 demoSt3
      (demoOrderAt demoSt2 50) rfl demo_confirm_ok).1,
   ((C1_value_conservation demoHfb).2.2 demoSt1 2 50 "r" 2500 demoStC
      (demoOrderAt demoSt1 50) rfl demo_cancel_ok).1⟩

end AptosEscrow
